import Mathlib

/-!
Verification of rotate_mac_address (src/__main__.py).

The program is a single control loop that repeatedly generates a random
MAC address from a fixed vendor-prefix table, applies it to a network
device via an external command, and stops after too many consecutive
failures.  The embedding below translates the pure data and control
logic of that file: randomness is passed in explicitly as a stream of
natural numbers, the external system (executable lookup and process
execution) is passed in as functions, and printing is modelled by
accumulating the printed lines in a list.
-/

namespace RotateMac

/-- VENDORS, lines 31 to 36: the fixed vendor table, in insertion order. -/
def VENDORS : List (String × String) :=
  [("intel", "00:1b:77"),
   ("hewlett_packard", "00:1b:78"),
   ("foxconn", "00:01:6c"),
   ("cisco", "00:10:29"),
   ("amd", "00:0c:87")]

/-- Whether a character matches the regex class w (ASCII fragment, which
covers every vendor key). -/
def isWordChar (c : Char) : Bool :=
  c.isAlphanum || c = '_'

/-- Left-to-right non-overlapping substitution of the pattern underscore
followed by a word character, replaced by a space and the upper-cased
word character, as re.sub does on line 49. -/
def subUnderscores : List Char → List Char
  | [] => []
  | ['_'] => ['_']
  | '_' :: d :: rest =>
    if isWordChar d then ' ' :: d.toUpper :: subUnderscores rest
    else '_' :: subUnderscores (d :: rest)
  | c :: rest => c :: subUnderscores rest

/-- underscored_to_capitalised, lines 43 to 54: upper-case the first
character, then substitute underscore-letter pairs in the remainder. -/
def underscored_to_capitalised (s : String) : String :=
  match s.data with
  | [] => ""
  | c :: rest => String.mk (c.toUpper :: subUnderscores rest)

/-- vendor_names, line 61: each vendor key mapped to its capitalised
human-readable name. -/
def vendor_names : List (String × String) :=
  VENDORS.map (fun p => (p.1, underscored_to_capitalised p.1))

/-- Modelled from the spec, section 8 property 1: the human-readable name
capitalises the first letter and each letter following an underscore,
replacing each underscore with a space.  Used only to compare against
underscored_to_capitalised on the table keys. -/
def specCapitaliseGo : Bool → List Char → List Char
  | _, [] => []
  | capNext, c :: rest =>
    if c = '_' then ' ' :: specCapitaliseGo true rest
    else (if capNext then c.toUpper else c) :: specCapitaliseGo false rest

/-- Spec-worded capitalisation of a whole key. -/
def specCapitalise (s : String) : String :=
  String.mk (specCapitaliseGo true s.data)

/-- Explicit random source: an infinite stream of natural draws and a
position into it.  Each primitive call of the random module consumes one
draw. -/
structure RandGen where
  stream : Nat → Nat
  pos : Nat

/-- random.randint(lo, hi): a uniform integer between lo and hi inclusive,
modelled as lo plus the next draw reduced modulo the range size. -/
def randInt (g : RandGen) (lo hi : Nat) : Nat × RandGen :=
  (lo + g.stream g.pos % (hi - lo + 1), { g with pos := g.pos + 1 })

/-- choose_vendor, lines 64 to 66: random.choice on the tuple of table
items, modelled as indexing by the next draw modulo the table length. -/
def choose_vendor (g : RandGen) : (String × String) × RandGen :=
  (VENDORS.getD (g.stream g.pos % VENDORS.length) ("", ""),
   { g with pos := g.pos + 1 })

/-- make_random_mac_address_section, lines 116 to 117: two independent
uniform digits from 1 to 9, rendered in decimal and concatenated. -/
def make_random_mac_address_section (g : RandGen) : String × RandGen :=
  let (d1, g1) := randInt g 1 9
  let (d2, g2) := randInt g1 1 9
  (toString d1 ++ toString d2, g2)

/-- make_random_mac_address, lines 120 to 125: a vendor choice followed by
three random sections joined with colons after the vendor prefix. -/
def make_random_mac_address (g : RandGen) : (String × String) × RandGen :=
  let (vp, g1) := choose_vendor g
  let (s1, g2) := make_random_mac_address_section g1
  let (s2, g3) := make_random_mac_address_section g2
  let (s3, g4) := make_random_mac_address_section g3
  ((vp.1, vp.2 ++ ":" ++ s1 ++ ":" ++ s2 ++ ":" ++ s3), g4)

/-- variate, lines 128 to 130, over the rationals; the uniform draw of
random.random() is the explicit argument U. -/
def variate (seconds variance U : ℚ) : ℚ :=
  let delta := (U - 1/2) * variance
  seconds + (seconds * delta)

/-- Result of running one external command: captured output on exit code
zero, otherwise the nonzero exit code with the captured output. -/
inductive ExecResult where
  | success (output : String)
  | failure (exitCode : Int) (output : String)
deriving DecidableEq

/-- The two exception kinds a device-command invocation can raise:
MissingProgramError (line 69) and subprocess.CalledProcessError. -/
inductive PyError where
  | missingProgram (msg : String)
  | calledProcess (exitCode : Int) (output : String)
deriving DecidableEq

/-- get_program_path, lines 73 to 78: shutil.which is the explicit
argument; a missing program raises MissingProgramError. -/
def get_program_path (which : String → Option String) (program : String) :
    Except PyError String :=
  match which program with
  | none => Except.error (PyError.missingProgram
      ("the " ++ program ++ " program was not found"))
  | some path => Except.ok path

/-- The linux branch of set_device_mac_address, lines 96 to 109: look up
the ip executable, then run it.  The second component records every
command actually handed to the process-execution facility, so an empty
list means no process was spawned. -/
def set_device_mac_address_linux (which : String → Option String)
    (exec : List String → ExecResult) (device_name address : String) :
    Except PyError String × List (List String) :=
  match get_program_path which "ip" with
  | Except.error e => (Except.error e, [])
  | Except.ok ip_command =>
    let cmd := [ip_command, "link", "set", "dev", device_name, "addr", address]
    match exec cmd with
    | ExecResult.success output => (Except.ok output, [cmd])
    | ExecResult.failure code output =>
      (Except.error (PyError.calledProcess code output), [cmd])

/-- The mac_os branch of set_device_mac_address, lines 84 to 94: look up
ifconfig, then run ifconfig by bare name (the source discards the looked
up path in the invocation). -/
def set_device_mac_address_mac_os (which : String → Option String)
    (exec : List String → ExecResult) (device_name address : String) :
    Except PyError String × List (List String) :=
  match get_program_path which "ifconfig" with
  | Except.error e => (Except.error e, [])
  | Except.ok _ =>
    let cmd := ["ifconfig", device_name, "ether", address]
    match exec cmd with
    | ExecResult.success output => (Except.ok output, [cmd])
    | ExecResult.failure code output =>
      (Except.error (PyError.calledProcess code output), [cmd])

/-- One message yielded by the generate_mac_addresses generator: the ok
status with vendor and address, or the error status carrying the string
form of the caught exception. -/
inductive Outcome where
  | ok (vendor address : String)
  | error (e : String)
deriving DecidableEq

/-- State of run_main_loop: the errors list (string forms, in order of
occurrence) and the lines printed so far. -/
structure LoopState where
  errors : List String
  output : List String
deriving DecidableEq

/-- Name lookup in vendor_names, as on line 161.  Keys produced by the
generator are always present, so the default is unreachable there. -/
def lookupVendorName (v : String) : String :=
  (vendor_names.lookup v).getD ""

/-- The informational line printed on the ok status, lines 159 to 161. -/
def okMessage (vendor address : String) : String :=
  "Set to MAC address " ++ address ++ " of vendor "
    ++ lookupVendorName vendor ++ "."

/-- The warning line printed on the error status, lines 166 to 169; the
number interpolated is the Int argument. -/
def warnMessage (n : Int) : String :=
  "An error occured; the program will stop if " ++ toString n
    ++ " more occur sequentially."

/-- One iteration of the body of run_main_loop, lines 153 to 174: an ok
message clears the errors and prints the informational line; an error
message prints the countdown (computed from the length before the
append), appends the error, and raises
TooManyMacAddressChangeErrorsError with the newline-joined errors once
the list reaches 3.  The raise is the error side, carrying the printed
lines and the exception message. -/
def step (st : LoopState) (o : Outcome) :
    Except (List String × String) LoopState :=
  match o with
  | Outcome.ok vendor address =>
    Except.ok { errors := [],
                output := st.output ++ [okMessage vendor address] }
  | Outcome.error e =>
    let out2 := st.output ++ [warnMessage (3 - (st.errors.length : Int))]
    let errors2 := st.errors ++ [e]
    if 3 ≤ errors2.length then
      Except.error (out2, String.intercalate "\n" errors2)
    else
      Except.ok { errors := errors2, output := out2 }

/-- The printed lines after one iteration, whichever side step took. -/
def stepOutput (st : LoopState) (o : Outcome) : List String :=
  match step st o with
  | Except.ok st2 => st2.output
  | Except.error p => p.1

/-- Result of run_main_loop on a finite list of messages: still running
with a state after consuming them all, or terminated by raising
TooManyMacAddressChangeErrorsError with the printed lines and message. -/
inductive RunResult where
  | running (st : LoopState)
  | raised (output : List String) (msg : String)
deriving DecidableEq

/-- The for loop of run_main_loop, folding step over the messages. -/
def run_main_loop_go : List Outcome → LoopState → RunResult
  | [], st => RunResult.running st
  | o :: rest, st =>
    match step st o with
    | Except.ok st2 => run_main_loop_go rest st2
    | Except.error p => RunResult.raised p.1 p.2

/-- run_main_loop, lines 150 to 177, on a finite list of generator
messages.  The maximum_error_count parameter is carried exactly as in
the source, where lines 169 and 172 use the literal 3 instead of it. -/
def run_main_loop (mac_addresses : List Outcome)
    (maximum_error_count : Nat) : RunResult :=
  run_main_loop_go mac_addresses { errors := [], output := [] }

/-- What set_device_mac_address did in one generator iteration, from the
point of view of generate_mac_addresses. -/
inductive AttemptResult where
  | success
  | calledProcessError (e : String)
  | missingProgramError (e : String)
deriving DecidableEq

/-- The try block of generate_mac_addresses, lines 138 to 142: success
yields the ok message, subprocess.CalledProcessError is caught and
yielded as the error message, and any other exception, in particular
MissingProgramError, is not matched by the except clause and propagates
out of the generator. -/
def generator_step : AttemptResult → String → String → Except String Outcome
  | AttemptResult.success, vendor, address =>
    Except.ok (Outcome.ok vendor address)
  | AttemptResult.calledProcessError e, _, _ =>
    Except.ok (Outcome.error e)
  | AttemptResult.missingProgramError e, _, _ => Except.error e

/-- Result of run_main_loop driven by the generator: running, raised
TooManyMacAddressChangeErrorsError, or ended by an exception that
escaped the generator uncaught. -/
inductive PipelineResult where
  | running (st : LoopState)
  | raised (output : List String) (msg : String)
  | uncaught (output : List String) (e : String)
deriving DecidableEq

/-- run_main_loop consuming generate_mac_addresses: each scripted attempt
carries the vendor and address that iteration generated. -/
def run_pipeline_go :
    List (AttemptResult × String × String) → LoopState → PipelineResult
  | [], st => PipelineResult.running st
  | (r, vendor, address) :: rest, st =>
    match generator_step r vendor address with
    | Except.error e => PipelineResult.uncaught st.output e
    | Except.ok o =>
      match step st o with
      | Except.ok st2 => run_pipeline_go rest st2
      | Except.error p => PipelineResult.raised p.1 p.2

/-- The pipeline started from the empty loop state. -/
def run_pipeline (attempts : List (AttemptResult × String × String))
    (maximum_error_count : Nat) : PipelineResult :=
  run_pipeline_go attempts { errors := [], output := [] }

/-- A generated DD section: a two-character string, each character a digit
from 1 to 9. -/
def macSectionOk (s : String) : Prop :=
  s.length = 2 ∧ ∀ c ∈ s.data, '1' ≤ c ∧ c ≤ '9'

theorem digit_repr_ok : ∀ n : Fin 9,
    (toString (1 + (n : Nat))).length = 1
    ∧ ∀ c ∈ (toString (1 + (n : Nat))).data, '1' ≤ c ∧ c ≤ '9' := by
  decide

theorem two_digit_ok (a b : Nat) :
    macSectionOk (toString (1 + a % 9) ++ toString (1 + b % 9)) := by
  have ha : a % 9 < 9 := Nat.mod_lt _ (by norm_num)
  have hb : b % 9 < 9 := Nat.mod_lt _ (by norm_num)
  have h1 := digit_repr_ok ⟨a % 9, ha⟩
  have h2 := digit_repr_ok ⟨b % 9, hb⟩
  constructor
  · rw [String.length_append, h1.1, h2.1]
  · intro c hc
    rw [String.data_append] at hc
    rcases List.mem_append.1 hc with h | h
    · exact h1.2 c h
    · exact h2.2 c h

theorem section_ok (g : RandGen) :
    macSectionOk (make_random_mac_address_section g).1 :=
  two_digit_ok (g.stream g.pos) (g.stream (g.pos + 1))

theorem getD_mem_VENDORS (n : Nat) (h : n < 5) :
    VENDORS.getD n ("", "") ∈ VENDORS := by
  interval_cases n <;> decide

theorem choose_vendor_mem (g : RandGen) : (choose_vendor g).1 ∈ VENDORS :=
  getD_mem_VENDORS _ (Nat.mod_lt _ (by decide))

theorem run_go_running_window_lt (outcomes : List Outcome) :
    ∀ st : LoopState, st.errors.length < 3 → ∀ st2,
      run_main_loop_go outcomes st = RunResult.running st2 →
      st2.errors.length < 3 := by
  induction outcomes with
  | nil =>
    intro st h st2 heq
    cases heq
    exact h
  | cons o rest ih =>
    intro st h st2 heq
    cases o with
    | ok v a =>
      have heq2 : run_main_loop_go rest
          ⟨[], st.output ++ [okMessage v a]⟩ = RunResult.running st2 := by
        simpa [run_main_loop_go, step] using heq
      exact ih _ (by simp) _ heq2
    | error e =>
      by_cases hlen : 3 ≤ st.errors.length + 1
      · exfalso
        simp [run_main_loop_go, step, hlen] at heq
      · have heq2 : run_main_loop_go rest
            ⟨st.errors ++ [e],
             st.output ++ [warnMessage (3 - (st.errors.length : Int))]⟩
            = RunResult.running st2 := by
          simpa [run_main_loop_go, step, hlen] using heq
        refine ih _ ?_ _ heq2
        simpa using by omega

/-- Claim C1: while run_main_loop keeps running the error window is
strictly below the threshold 3, and an error outcome whose append would
bring the window to the threshold makes the iteration raise
TooManyMacAddressChangeErrorsError at once, so the window never remains
at or above the threshold. -/
theorem c1_error_window_invariant (outcomes : List Outcome) (m : Nat) :
    (∀ st, run_main_loop outcomes m = RunResult.running st →
        st.errors.length < 3)
    ∧ ∀ (st : LoopState) (e : String), 3 ≤ st.errors.length + 1 →
        ∃ p, step st (Outcome.error e) = Except.error p := by
  constructor
  · intro st heq
    exact run_go_running_window_lt outcomes { errors := [], output := [] }
      (by simp) st heq
  · intro st e h
    refine ⟨(st.output ++ [warnMessage (3 - (st.errors.length : Int))],
             String.intercalate "\n" (st.errors ++ [e])), ?_⟩
    simp [step, h]

theorem c1_witness :
    ({ errors := ["e1"], output := [warnMessage 3] } : LoopState).errors.length < 3
    ∧ ∃ p, step { errors := ["x", "y"], output := [] } (Outcome.error "z")
        = Except.error p :=
  ⟨(c1_error_window_invariant [Outcome.error "e1"] 3).1
      { errors := ["e1"], output := [warnMessage 3] } (by decide),
   (c1_error_window_invariant [] 0).2
      { errors := ["x", "y"], output := [] } "z" (by decide)⟩

/-- Claim C2: a success clears the error window; on the sequence failure,
failure, success, failure, failure, failure the loop is still running
after the first two failures, still running after five outcomes, and
raises only after the sixth outcome, the third post-success failure. -/
theorem c2_success_clears_window :
    run_main_loop [Outcome.error "e1", Outcome.error "e2"] 3
      = RunResult.running ⟨["e1", "e2"], [warnMessage 3, warnMessage 2]⟩
    ∧ run_main_loop [Outcome.error "e1", Outcome.error "e2",
          Outcome.ok "intel" "00:1b:77:11:22:33",
          Outcome.error "e3", Outcome.error "e4"] 3
      = RunResult.running ⟨["e3", "e4"],
          [warnMessage 3, warnMessage 2,
            okMessage "intel" "00:1b:77:11:22:33",
            warnMessage 3, warnMessage 2]⟩
    ∧ run_main_loop [Outcome.error "e1", Outcome.error "e2",
          Outcome.ok "intel" "00:1b:77:11:22:33",
          Outcome.error "e3", Outcome.error "e4", Outcome.error "e5"] 3
      = RunResult.raised
          [warnMessage 3, warnMessage 2,
            okMessage "intel" "00:1b:77:11:22:33",
            warnMessage 3, warnMessage 2, warnMessage 1]
          (String.intercalate "\n" ["e3", "e4", "e5"]) :=
  ⟨by decide, by decide, by decide⟩

/-- Claim C3: whenever an error outcome makes the loop raise, the raised
message is the newline join of every error in the window in order of
occurrence, and three consecutive failures with threshold 3 raise
exactly after the third failure with all three descriptions joined in
order. -/
theorem c3_raise_message_joins_window :
    (∀ (st : LoopState) (e : String) (p : List String × String),
        step st (Outcome.error e) = Except.error p →
        p.2 = String.intercalate "\n" (st.errors ++ [e]))
    ∧ run_main_loop [Outcome.error "e1", Outcome.error "e2",
          Outcome.error "e3"] 3
      = RunResult.raised [warnMessage 3, warnMessage 2, warnMessage 1]
          (String.intercalate "\n" ["e1", "e2", "e3"]) := by
  constructor
  · intro st e p heq
    by_cases h : 3 ≤ st.errors.length + 1
    · simp [step, h] at heq
      simp [← heq]
    · simp [step, h] at heq
  · decide

theorem c3_witness :
    step { errors := ["a", "b"], output := [] } (Outcome.error "c")
      = Except.error ([warnMessage 1], "a\nb\nc")
    ∧ ("a\nb\nc" : String)
      = String.intercalate "\n" ((["a", "b"] : List String) ++ ["c"]) :=
  ⟨by rfl,
   c3_raise_message_joins_window.1 { errors := ["a", "b"], output := [] } "c"
     ([warnMessage 1], "a\nb\nc") (by rfl)⟩

/-- Claim C4 counterexample: a missing-program failure is not appended to
the error window.  It escapes the generator uncaught, with no warning
printed and nothing counted, while a command failure at the same place
is caught, appended and warned about. -/
theorem c4_counterexample :
    run_pipeline [(AttemptResult.missingProgramError
        "the ip program was not found", "intel", "00:1b:77:11:11:11")] 3
      = PipelineResult.uncaught [] "the ip program was not found"
    ∧ run_pipeline [(AttemptResult.calledProcessError "boom",
        "intel", "00:1b:77:11:11:11")] 3
      = PipelineResult.running ⟨["boom"], [warnMessage 3]⟩ :=
  ⟨by decide, by decide⟩

/-- Claim C4 as amended: the missing-program error is raised inside the
same try scope as the command call, but the except clause catches only
CalledProcessError, so the missing-program error propagates out of the
generator uncaught; the iteration appends nothing to the error window,
prints no countdown, and the loop ends at once whatever the window
held. -/
theorem c4_missing_program_not_counted (e vendor address : String)
    (rest : List (AttemptResult × String × String)) (st : LoopState) :
    run_pipeline_go
        ((AttemptResult.missingProgramError e, vendor, address) :: rest) st
      = PipelineResult.uncaught st.output e := rfl

/-- Claim C5 counterexample: on the first consecutive failure (k = 1) the
warning reports 3, not threshold minus k = 2, because the countdown is
computed before the error is appended. -/
theorem c5_counterexample :
    run_main_loop [Outcome.error "e1"] 3
      = RunResult.running { errors := ["e1"], output := [warnMessage 3] }
    ∧ warnMessage 3 ≠ warnMessage 2 :=
  ⟨by decide, by decide⟩

/-- Claim C5 as amended: on a failure outcome the warning is computed from
the window length before the append, so the k-th consecutive failure
reports threshold minus (k minus 1); the error is appended after the
warning, and three consecutive failures from an empty window report 3,
2, 1. -/
theorem c5_countdown_before_append :
    (∀ (st : LoopState) (e : String),
      stepOutput st (Outcome.error e)
        = st.output ++ [warnMessage (3 - (st.errors.length : Int))]
      ∧ (step st (Outcome.error e)
          = Except.ok ⟨st.errors ++ [e],
              st.output ++ [warnMessage (3 - (st.errors.length : Int))]⟩
        ∨ step st (Outcome.error e)
          = Except.error (st.output
                ++ [warnMessage (3 - (st.errors.length : Int))],
              String.intercalate "\n" (st.errors ++ [e]))))
    ∧ run_main_loop [Outcome.error "e1", Outcome.error "e2",
          Outcome.error "e3"] 3
      = RunResult.raised
          [warnMessage (3 - 0), warnMessage (3 - 1), warnMessage (3 - 2)]
          (String.intercalate "\n" ["e1", "e2", "e3"]) := by
  constructor
  · intro st e
    by_cases h : 3 ≤ st.errors.length + 1
    · exact ⟨by simp [stepOutput, step, h], Or.inr (by simp [step, h])⟩
    · exact ⟨by simp [stepOutput, step, h], Or.inl (by simp [step, h])⟩
  · decide

/-- Claim C6: for every state of the random source the generated pair is a
vendor key of the 5-entry table together with an address that is that
vendor's prefix followed by three two-character sections of digits from
1 to 9, all joined by colons. -/
theorem c6_address_shape (g : RandGen) :
    VENDORS.length = 5
    ∧ ∃ pfx s1 s2 s3,
        ((make_random_mac_address g).1.1, pfx) ∈ VENDORS
        ∧ (make_random_mac_address g).1.2
            = pfx ++ ":" ++ s1 ++ ":" ++ s2 ++ ":" ++ s3
        ∧ macSectionOk s1 ∧ macSectionOk s2 ∧ macSectionOk s3 := by
  refine ⟨rfl, (choose_vendor g).1.2,
    (make_random_mac_address_section (choose_vendor g).2).1,
    (make_random_mac_address_section
      (make_random_mac_address_section (choose_vendor g).2).2).1,
    (make_random_mac_address_section
      (make_random_mac_address_section
        (make_random_mac_address_section (choose_vendor g).2).2).2).1,
    ?_, rfl, section_ok _, section_ok _, section_ok _⟩
  exact choose_vendor_mem g

/-- Claim C7: variate seconds variance U equals seconds plus seconds times
(U minus one half) times variance, and for every uniform draw U in
[0, 1) the value variate 1800 (1/4) U lies in the closed interval
[1575, 2025]. -/
theorem c7_variate_bounds (U : ℚ) (h0 : 0 ≤ U) (h1 : U < 1) :
    variate 1800 (1/4) U = 1800 + 1800 * ((U - 1/2) * (1/4))
    ∧ 1575 ≤ variate 1800 (1/4) U ∧ variate 1800 (1/4) U ≤ 2025 := by
  refine ⟨rfl, ?_, ?_⟩ <;> simp only [variate] <;> nlinarith

theorem c7_witness :
    (0 ≤ (1/2 : ℚ) ∧ (1/2 : ℚ) < 1)
    ∧ (variate 1800 (1/4) (1/2)
          = 1800 + 1800 * (((1/2 : ℚ) - 1/2) * (1/4))
       ∧ 1575 ≤ variate 1800 (1/4) (1/2)
       ∧ variate 1800 (1/4) (1/2) ≤ 2025) :=
  ⟨⟨by norm_num, by norm_num⟩,
   c7_variate_bounds (1/2) (by norm_num) (by norm_num)⟩

/-- Claim C8: when the executable search (shutil.which) cannot find the
required program, the device-command invocation returns the
missing-program error and its spawn trace is empty: the lookup happens
first and no process is run, on both platform branches. -/
theorem c8_missing_program_before_spawn (which : String → Option String)
    (exec : List String → ExecResult) (device_name address : String) :
    (which "ip" = none →
      set_device_mac_address_linux which exec device_name address
        = (Except.error
            (PyError.missingProgram "the ip program was not found"), []))
    ∧ (which "ifconfig" = none →
      set_device_mac_address_mac_os which exec device_name address
        = (Except.error
            (PyError.missingProgram "the ifconfig program was not found"),
           [])) := by
  constructor <;> intro h
  · simp [set_device_mac_address_linux, get_program_path, h]
  · simp [set_device_mac_address_mac_os, get_program_path, h]

theorem c8_witness :
    ((fun _ : String => (none : Option String)) "ip" = none)
    ∧ set_device_mac_address_linux (fun _ => none)
        (fun _ => ExecResult.success "") "eth0" "00:1b:77:11:22:33"
      = (Except.error
          (PyError.missingProgram "the ip program was not found"), []) :=
  ⟨rfl,
   (c8_missing_program_before_spawn (fun _ => none)
      (fun _ => ExecResult.success "") "eth0" "00:1b:77:11:22:33").1 rfl⟩

/-- Claim C9: on every key of the vendor table the derived human-readable
name agrees with the spec-worded capitalisation (first letter and each
letter after an underscore upper-cased, underscores turned into
spaces); in particular hewlett_packard maps to Hewlett Packard, and the
full name table is as expected. -/
theorem c9_vendor_name_capitalisation :
    (∀ p ∈ VENDORS, underscored_to_capitalised p.1 = specCapitalise p.1)
    ∧ underscored_to_capitalised "hewlett_packard" = "Hewlett Packard"
    ∧ vendor_names = [("intel", "Intel"),
        ("hewlett_packard", "Hewlett Packard"), ("foxconn", "Foxconn"),
        ("cisco", "Cisco"), ("amd", "Amd")] :=
  ⟨by decide, by decide, by decide⟩

theorem c9_witness :
    ("hewlett_packard", "00:1b:78") ∈ VENDORS
    ∧ underscored_to_capitalised ("hewlett_packard", "00:1b:78").1
      = specCapitalise ("hewlett_packard", "00:1b:78").1 :=
  ⟨by decide,
   c9_vendor_name_capitalisation.1 ("hewlett_packard", "00:1b:78")
     (by decide)⟩

/-- Claim C10: the maximum_error_count parameter of run_main_loop has no
effect: any two values give identical results (printed lines, countdown
numbers and raise behaviour included), and with any value the loop
raises after exactly three consecutive failures, since the threshold
and the countdown use the literal 3. -/
theorem c10_maximum_error_count_ignored (m1 m2 : Nat)
    (outcomes : List Outcome) :
    run_main_loop outcomes m1 = run_main_loop outcomes m2
    ∧ ∀ e1 e2 e3 : String,
        run_main_loop [Outcome.error e1, Outcome.error e2] m1
          = RunResult.running ⟨[e1, e2], [warnMessage 3, warnMessage 2]⟩
        ∧ run_main_loop [Outcome.error e1, Outcome.error e2,
              Outcome.error e3] m1
          = RunResult.raised [warnMessage 3, warnMessage 2, warnMessage 1]
              (String.intercalate "\n" [e1, e2, e3]) :=
  ⟨rfl, fun _ _ _ => ⟨rfl, rfl⟩⟩

end RotateMac
